import Mathlib

/-
Verification of the gemini-api-alert program (src/app.py) against its
natural-language specification.

Shallow embedding notes.
* Numeric values (Python floats holding prices, volumes, percentages) are
  modelled as rationals (ℚ); every concrete value appearing in the claims is
  exactly representable.
* Python functions that can raise are modelled as `Except PyErr _`; the
  constructors of `PyErr` name the concrete Python exception classes raised at
  the corresponding sites of app.py.
* `stats.stdev` computes the square root of the Bessel-corrected sample
  variance.  The square root is irrational-valued in general, so the embedding
  is parametrised by the square-root function `sqrtf : ℚ → ℚ`; theorems that
  depend on its value constrain it by the defining properties of the real
  square root at exactly the points where it is applied
  (`0 ≤ sqrtf v`, `sqrtf v ^ 2 = v`, or `sqrtf 0 = 0`).  Concrete instances
  (`sqrtOne`, `sqrtZero`) are supplied for witness inputs whose sample
  variance is 0 or 1, where those constants agree with the real square root.
* The HTTP transport (`send_request`, URLs) is an external collaborator and is
  out of scope; each analysis is modelled from the parsed JSON payload
  (`Ticker` for the ticker endpoint, `List (List ℚ)` for the candles
  endpoint).
* Log lines that carry the outcome of an analysis are modelled as events
  (`Event.logError` / `Event.logInfo` / `Event.logException`); intermediate
  progress log lines carry no information and are not modelled.  `send_alert`
  and `send_info` (the AlertSink) produce the distinguished events
  `Event.sinkAlert` / `Event.sinkInfo`.  Their message arguments are
  interpolated f-strings that always contain literal text, hence are always
  truthy, so the `ValueError` guard of `send_alert` / `send_info` cannot fire
  at the embedded call sites and the message text (which no claim depends on)
  is abstracted away.
* Ticker fields arrive as JSON and are modelled already parsed as
  `Option ℚ`; the source guards them by Python truthiness, under which both a
  missing field and a parsed value of exactly 0 are falsy.
-/

/-- Python exception classes raised by app.py, named after the classes that
reach each site: `ValueError` (explicit raises), `StatisticsError`
(`stats.stdev` on fewer than two points), `ZeroDivisionError` (division by a
zero standard deviation), `UnboundLocalError` (the `return` in
`calculate_zscore` after the internal exception was caught),
`TypeError` (iterating `None` in `get_hourly_past_24_hours`), and
`IndexError` (indexing an empty candle row). -/
inductive PyErr where
  | valueError
  | statisticsError
  | zeroDivisionError
  | unboundLocalError
  | typeError
  | indexError
  deriving DecidableEq, Repr

/-- Classification of a metric against a threshold (spec §3). -/
inductive Classification where
  | alert
  | info
  deriving DecidableEq, Repr

/-- The alert_type tag passed to the AlertSink by the two call sites that use
it. -/
inductive AlertKind where
  | pricechange
  | voldev
  deriving DecidableEq, Repr

/-- Externally observable terminal emissions of one analysis run.
`sinkAlert` / `sinkInfo` are the structured AlertSink events produced by
`send_alert` / `send_info`; `logError` / `logInfo` are the direct logger calls
that carry the classification inside `get_price_deviation`; `logException` is
the exception log emitted by the catch-all handler of each analysis. -/
inductive Event where
  | sinkAlert (kind : AlertKind)
  | sinkInfo (kind : AlertKind)
  | logError
  | logInfo
  | logException
  deriving DecidableEq, Repr

/-- Parsed JSON payload of the ticker endpoint: `close`, `open` and `changes`
fields, each possibly absent. -/
structure Ticker where
  close : Option ℚ
  openPrice : Option ℚ
  changes : Option (List ℚ)

/-- True exactly on the AlertSink events. -/
def isSinkEvent : Event → Bool
  | Event.sinkAlert _ => true
  | Event.sinkInfo _ => true
  | _ => false

/-- Sample mean of a list, as computed by `stats.mean`. -/
def sampleMean (l : List ℚ) : ℚ := l.sum / (l.length : ℚ)

/-- Bessel-corrected (n−1 denominator) sample variance, the quantity whose
square root `stats.stdev` returns. -/
def sampleVariance (l : List ℚ) : ℚ :=
  ((l.map (fun x => (x - sampleMean l) ^ 2)).sum) / ((l.length : ℚ) - 1)

/-- Embedding of `calculate_percentage_change` (app.py:47-55): the guard
`if final and initial:` is Python truthiness on floats, so both arguments must
be nonzero, otherwise `ValueError` is raised. -/
def calculate_percentage_change (final initial : ℚ) : Except PyErr ℚ :=
  if final ≠ 0 ∧ initial ≠ 0 then Except.ok (((final - initial) / initial) * 100)
  else Except.error PyErr.valueError

/-- The `try` body of `calculate_zscore` (app.py:66-72): `stats.stdev` raises
`StatisticsError` on fewer than two data points; otherwise the standard
deviation is the square root of the sample variance, the mean is computed, and
the division raises `ZeroDivisionError` exactly when the standard deviation
is 0. -/
def zscore_try (sqrtf : ℚ → ℚ) (past_values : List ℚ) (current_price : ℚ) :
    Except PyErr (ℚ × ℚ × ℚ) :=
  if past_values.length < 2 then Except.error PyErr.statisticsError
  else
    let sample_stdev := sqrtf (sampleVariance past_values)
    let sample_mean := sampleMean past_values
    if sample_stdev = 0 then Except.error PyErr.zeroDivisionError
    else Except.ok ((current_price - sample_mean) / sample_stdev, sample_mean, sample_stdev)

/-- Embedding of `calculate_zscore` (app.py:58-75): the `except` clause
catches any exception from the body and only logs it; the subsequent
`return (zscore, sample_mean, sample_stdev)` then reads unbound local
variables and raises `UnboundLocalError`, in either failure mode. -/
def calculate_zscore (sqrtf : ℚ → ℚ) (past_values : List ℚ) (current_price : ℚ) :
    Except PyErr (ℚ × ℚ × ℚ) :=
  match zscore_try sqrtf past_values current_price with
  | Except.ok r => Except.ok r
  | Except.error _ => Except.error PyErr.unboundLocalError

/-- Embedding of `get_current_price` (app.py:90-98): `response.get('close')`
is falsy when the field is absent or its parsed value is 0, in which case
`ValueError` is raised. -/
def get_current_price (response : Ticker) : Except PyErr ℚ :=
  match response.close with
  | some c => if c = 0 then Except.error PyErr.valueError else Except.ok c
  | none => Except.error PyErr.valueError

/-- Embedding of `get_open_price` (app.py:101-109), same contract on the open
field. -/
def get_open_price (response : Ticker) : Except PyErr ℚ :=
  match response.openPrice with
  | some c => if c = 0 then Except.error PyErr.valueError else Except.ok c
  | none => Except.error PyErr.valueError

/-- Embedding of `get_hourly_past_24_hours` (app.py:144-149): when the
`changes` field is absent, `response.get('changes')` is `None` and the list
comprehension raises `TypeError`; the elements are modelled already parsed. -/
def get_hourly_past_24_hours (response : Ticker) : Except PyErr (List ℚ) :=
  match response.changes with
  | some l => Except.ok l
  | none => Except.error PyErr.typeError

/-- Last element of a candle row with default 0; `row[len(row) - 1]` of a
nonempty row. -/
def lastD (row : List ℚ) : ℚ := (row.getLast?).getD 0

/-- `hour[len(hour) - 1]`: the volume column of one candle row, raising
`IndexError` on an empty row. -/
def rowLast (row : List ℚ) : Except PyErr ℚ :=
  match row.getLast? with
  | some v => Except.ok v
  | none => Except.error PyErr.indexError

/-- The accumulation loop of `get_total_volume_past_24_hours`
(app.py:132-139): collect the last column of each row, stopping at the first
`IndexError`. -/
def collectRowLasts : List (List ℚ) → Except PyErr (List ℚ)
  | [] => Except.ok []
  | r :: rs =>
    match rowLast r with
    | Except.error e => Except.error e
    | Except.ok v =>
      match collectRowLasts rs with
      | Except.error e => Except.error e
      | Except.ok vs => Except.ok (v :: vs)

/-- Embedding of `get_total_volume_past_24_hours` (app.py:126-141): raises
`ValueError` on an empty response, otherwise sums the last column of the
first 24 rows with `stats.fsum` (exact over ℚ). -/
def get_total_volume_past_24_hours (response : List (List ℚ)) : Except PyErr ℚ :=
  match response with
  | [] => Except.error PyErr.valueError
  | _ :: _ =>
    match collectRowLasts (response.take 24) with
    | Except.error e => Except.error e
    | Except.ok vols => Except.ok vols.sum

/-- Embedding of `get_current_volume_1m_interval` (app.py:112-123): raises
`ValueError` when the response, or its first row, is empty; otherwise returns
the last column of the first row. -/
def get_current_volume_1m_interval (response : List (List ℚ)) : Except PyErr ℚ :=
  match response with
  | [] => Except.error PyErr.valueError
  | row :: _ => if row = [] then Except.error PyErr.valueError else Except.ok (lastD row)

/-- Embedding of `send_alert` (app.py:252-261): the alert_type is one of the
literal nonempty strings "pricechange" / "voldev" and the message is a
nonempty f-string, so the truthiness guard always passes and the structured
alert event is emitted. -/
def send_alert (kind : AlertKind) : Event := Event.sinkAlert kind

/-- Embedding of `send_info` (app.py:264-273), same guard, emits the
informational event. -/
def send_info (kind : AlertKind) : Event := Event.sinkInfo kind

/-- The sigma-threshold comparison chain of `get_price_deviation`
(app.py:166-175): `if zscore > stdev: ... elif zscore < (stdev * -1.00): ...
else: ...`, where the first two branches log at error level (ALERT) and the
last at info level (INFO). -/
def classify_by_sigma (zscore stdev : ℚ) : Classification :=
  if zscore > stdev then Classification.alert
  else if zscore < stdev * (-1) then Classification.alert
  else Classification.info

/-- The `try` body of `get_price_deviation` (app.py:157-175): extract the
current price and the hourly changes, compute the z-score, and log the
classification directly (no AlertSink call in this analysis). -/
def get_price_deviation_body (sqrtf : ℚ → ℚ) (tkr : Ticker) (stdev : ℚ) :
    Except PyErr Event :=
  match get_current_price tkr with
  | Except.error e => Except.error e
  | Except.ok current_price =>
    match get_hourly_past_24_hours tkr with
    | Except.error e => Except.error e
    | Except.ok past_prices =>
      match calculate_zscore sqrtf past_prices current_price with
      | Except.error e => Except.error e
      | Except.ok (zscore, _, _) =>
        if classify_by_sigma zscore stdev = Classification.alert then Except.ok Event.logError
        else Except.ok Event.logInfo

/-- Embedding of `get_price_deviation` (app.py:152-178): the catch-all
handler turns any exception from the body into a single exception log. -/
def get_price_deviation (sqrtf : ℚ → ℚ) (tkr : Ticker) (stdev : ℚ) : List Event :=
  match get_price_deviation_body sqrtf tkr stdev with
  | Except.ok e => [e]
  | Except.error _ => [Event.logException]

/-- The z-score stage of the price-deviation pipeline: what
`get_price_deviation` has computed when it reaches its comparison chain. -/
def priceDevZscore (sqrtf : ℚ → ℚ) (tkr : Ticker) : Except PyErr (ℚ × ℚ × ℚ) :=
  match get_current_price tkr with
  | Except.error e => Except.error e
  | Except.ok current_price =>
    match get_hourly_past_24_hours tkr with
    | Except.error e => Except.error e
    | Except.ok past_prices => calculate_zscore sqrtf past_prices current_price

/-- The `try` body of `get_price_change` (app.py:185-205): extract current and
open price, compute the percentage change, and emit to the AlertSink with the
strict comparison `abs(percent_change) > threshold`. -/
def get_price_change_body (tkr : Ticker) (threshold : ℚ) : Except PyErr Event :=
  match get_current_price tkr with
  | Except.error e => Except.error e
  | Except.ok current_price =>
    match get_open_price tkr with
    | Except.error e => Except.error e
    | Except.ok open_price =>
      match calculate_percentage_change current_price open_price with
      | Except.error e => Except.error e
      | Except.ok percent_change =>
        if abs percent_change > threshold then Except.ok (send_alert AlertKind.pricechange)
        else Except.ok (send_info AlertKind.pricechange)

/-- Embedding of `get_price_change` (app.py:181-208). -/
def get_price_change (tkr : Ticker) (threshold : ℚ) : List Event :=
  match get_price_change_body tkr threshold with
  | Except.ok e => [e]
  | Except.error _ => [Event.logException]

/-- The percentage-change stage of the price-change pipeline. -/
def priceChangePercent (tkr : Ticker) : Except PyErr ℚ :=
  match get_current_price tkr with
  | Except.error e => Except.error e
  | Except.ok current_price =>
    match get_open_price tkr with
    | Except.error e => Except.error e
    | Except.ok open_price => calculate_percentage_change current_price open_price

/-- The `try` body of `get_volume_deviation` (app.py:218-239): 24h moving sum
from the 1hr candles, current volume from the 1m candles, percentage change,
then the directional (non-absolute) comparison `percent_change > threshold`. -/
def get_volume_deviation_body (candles1hr candles1m : List (List ℚ)) (threshold : ℚ) :
    Except PyErr Event :=
  match get_total_volume_past_24_hours candles1hr with
  | Except.error e => Except.error e
  | Except.ok total_24hr_volume =>
    match get_current_volume_1m_interval candles1m with
    | Except.error e => Except.error e
    | Except.ok current_volume =>
      match calculate_percentage_change current_volume total_24hr_volume with
      | Except.error e => Except.error e
      | Except.ok percent_change =>
        if percent_change > threshold then Except.ok (send_alert AlertKind.voldev)
        else Except.ok (send_info AlertKind.voldev)

/-- Embedding of `get_volume_deviation` (app.py:211-241). -/
def get_volume_deviation (candles1hr candles1m : List (List ℚ)) (threshold : ℚ) : List Event :=
  match get_volume_deviation_body candles1hr candles1m threshold with
  | Except.ok e => [e]
  | Except.error _ => [Event.logException]

/-- The percentage-change stage of the volume-deviation pipeline. -/
def volDevPercentChange (candles1hr candles1m : List (List ℚ)) : Except PyErr ℚ :=
  match get_total_volume_past_24_hours candles1hr with
  | Except.error e => Except.error e
  | Except.ok total_24hr_volume =>
    match get_current_volume_1m_interval candles1m with
    | Except.error e => Except.error e
    | Except.ok current_volume => calculate_percentage_change current_volume total_24hr_volume

/-- The analysis calls `main` can dispatch, with the threshold each receives. -/
inductive AnalysisCall where
  | priceDev (sigma : ℚ)
  | priceChange (threshold : ℚ)
  | volDev (threshold : ℚ)
  deriving DecidableEq, Repr

/-- The dispatch structure of `main` (app.py:292-308): the CLI deviation is
multiplied by 100 first, the price-deviation analysis always receives the
fixed sigma threshold 1.0, and an unrecognized alert_type dispatches
nothing. -/
def mainDispatch (alert_type : String) (deviation : ℚ) : List AnalysisCall :=
  let d := deviation * 100
  if alert_type = "pricedev" then [AnalysisCall.priceDev 1]
  else if alert_type = "pricechange" then [AnalysisCall.priceChange d]
  else if alert_type = "voldev" then [AnalysisCall.volDev d]
  else if alert_type = "all" then
    [AnalysisCall.priceDev 1, AnalysisCall.priceChange d, AnalysisCall.volDev d]
  else []

/-- Event semantics of `main` (app.py:292-308) on already-fetched data: the
events of the dispatched analyses in source order; an unrecognized alert_type
only logs. -/
def runMain (alert_type : String) (deviation : ℚ) (sqrtf : ℚ → ℚ) (tkr : Ticker)
    (candles1hr candles1m : List (List ℚ)) : List Event :=
  let d := deviation * 100
  if alert_type = "pricedev" then get_price_deviation sqrtf tkr 1
  else if alert_type = "pricechange" then get_price_change tkr d
  else if alert_type = "voldev" then get_volume_deviation candles1hr candles1m d
  else if alert_type = "all" then
    get_price_deviation sqrtf tkr 1 ++ get_price_change tkr d ++
      get_volume_deviation candles1hr candles1m d
  else [Event.logException]

/-- Stand-in for `math.sqrt` at inputs whose sample variance is 1 (where the
real square root is 1). -/
def sqrtOne : ℚ → ℚ := fun _ => 1

/-- Stand-in for `math.sqrt` at inputs whose sample variance is 0 (where the
real square root is 0). -/
def sqrtZero : ℚ → ℚ := fun _ => 0

/-- Sum of a constant list. -/
theorem list_sum_of_const (l : List ℚ) (a : ℚ) (h : ∀ x ∈ l, x = a) :
    l.sum = (l.length : ℚ) * a := by
  induction l with
  | nil => simp
  | cons x xs ih =>
    have hx : x = a := h x (by simp)
    have hxs : xs.sum = (xs.length : ℚ) * a := ih (fun y hy => h y (by simp [hy]))
    simp [hx, hxs]
    ring

/-- A nonempty constant list has sample mean equal to the constant. -/
theorem sampleMean_of_const (l : List ℚ) (a : ℚ) (hl : l ≠ []) (h : ∀ x ∈ l, x = a) :
    sampleMean l = a := by
  have hlen : (l.length : ℚ) ≠ 0 := by
    have h0 : l.length ≠ 0 := Nat.pos_iff_ne_zero.mp (List.length_pos.mpr hl)
    exact_mod_cast Nat.cast_ne_zero.mpr h0
  unfold sampleMean
  rw [list_sum_of_const l a h, mul_comm, mul_div_assoc, div_self hlen, mul_one]

/-- A nonempty constant list has sample variance 0. -/
theorem sampleVariance_of_const (l : List ℚ) (a : ℚ) (hl : l ≠ []) (h : ∀ x ∈ l, x = a) :
    sampleVariance l = 0 := by
  unfold sampleVariance
  have hm : sampleMean l = a := sampleMean_of_const l a hl h
  have hz : (l.map (fun x => (x - sampleMean l) ^ 2)).sum = 0 := by
    apply List.sum_eq_zero
    intro y hy
    obtain ⟨x, hx, rfl⟩ := List.mem_map.mp hy
    rw [h x hx, hm, sub_self]
    ring
  rw [hz, zero_div]

/-- C4: for nonzero arguments `calculate_percentage_change` returns
`((final - initial) / initial) * 100` (so `(110, 100)` gives 10 and
`(90, 100)` gives -10), and it raises `ValueError` (the spec's
`InvalidInputError`) exactly when one of the arguments is zero — the
truthiness guard treats 0 as missing. -/
theorem percentage_change_spec :
    (∀ final initial : ℚ, final ≠ 0 → initial ≠ 0 →
      calculate_percentage_change final initial =
        Except.ok (((final - initial) / initial) * 100))
    ∧ (∀ final initial : ℚ,
        calculate_percentage_change final initial = Except.error PyErr.valueError ↔
          (final = 0 ∨ initial = 0))
    ∧ calculate_percentage_change 110 100 = Except.ok 10
    ∧ calculate_percentage_change 90 100 = Except.ok (-10) := by
  refine ⟨?_, ?_, ?_, ?_⟩
  · intro f i hf hi
    simp [calculate_percentage_change, hf, hi]
  · intro f i
    by_cases hf : f = 0 <;> by_cases hi : i = 0 <;>
      simp [calculate_percentage_change, hf, hi]
  · norm_num [calculate_percentage_change]
  · norm_num [calculate_percentage_change]

/-- Witness for `percentage_change_spec` at `(110, 100)`. -/
theorem percentage_change_spec_witness :
    calculate_percentage_change 110 100 = Except.ok (((110 - 100) / 100) * 100) :=
  percentage_change_spec.1 110 100 (by norm_num) (by norm_num)

/-- C2 (amended): with fewer than two data points `stats.stdev` raises
`StatisticsError`, with a zero standard deviation the division raises
`ZeroDivisionError`; both are caught and logged inside `calculate_zscore`,
after which the `return` raises the same untyped `UnboundLocalError` in
either case, so the failure reaching the caller does not distinguish the two
causes. -/
theorem zscore_failure_modes :
    (∀ (sqrtf : ℚ → ℚ) (past : List ℚ) (current : ℚ), past.length < 2 →
        zscore_try sqrtf past current = Except.error PyErr.statisticsError ∧
        calculate_zscore sqrtf past current = Except.error PyErr.unboundLocalError)
    ∧ (∀ (sqrtf : ℚ → ℚ) (past : List ℚ) (current : ℚ), 2 ≤ past.length →
        sqrtf (sampleVariance past) = 0 →
        zscore_try sqrtf past current = Except.error PyErr.zeroDivisionError ∧
        calculate_zscore sqrtf past current = Except.error PyErr.unboundLocalError)
    ∧ (∀ (sqrtf : ℚ → ℚ) (past : List ℚ) (current a : ℚ), 2 ≤ past.length →
        (∀ x ∈ past, x = a) → sqrtf 0 = 0 →
        calculate_zscore sqrtf past current = Except.error PyErr.unboundLocalError) := by
  have h2 : ∀ (sqrtf : ℚ → ℚ) (past : List ℚ) (current : ℚ), 2 ≤ past.length →
      sqrtf (sampleVariance past) = 0 →
      zscore_try sqrtf past current = Except.error PyErr.zeroDivisionError ∧
      calculate_zscore sqrtf past current = Except.error PyErr.unboundLocalError := by
    intro sqrtf past current hlen hs
    have hnlt : ¬past.length < 2 := Nat.not_lt.mpr hlen
    constructor
    · simp [zscore_try, hnlt, hs]
    · simp [calculate_zscore, zscore_try, hnlt, hs]
  refine ⟨?_, h2, ?_⟩
  · intro sqrtf past current h
    constructor
    · simp [zscore_try, h]
    · simp [calculate_zscore, zscore_try, h]
  · intro sqrtf past current a hlen hconst hs0
    have hne : past ≠ [] := by
      intro hnil
      rw [hnil] at hlen
      exact absurd hlen (by decide)
    have hv : sampleVariance past = 0 := sampleVariance_of_const past a hne hconst
    exact (h2 sqrtf past current hlen (by rw [hv, hs0])).2

/-- Witness for `zscore_failure_modes` at `[1]` and `[5, 5, 5]`. -/
theorem zscore_failure_modes_witness :
    ([1] : List ℚ).length < 2
    ∧ calculate_zscore sqrtZero [1] 5 = Except.error PyErr.unboundLocalError
    ∧ 2 ≤ ([5, 5, 5] : List ℚ).length
    ∧ calculate_zscore sqrtZero [5, 5, 5] 6 = Except.error PyErr.unboundLocalError :=
  ⟨by decide, (zscore_failure_modes.1 sqrtZero [1] 5 (by decide)).2, by decide,
    (zscore_failure_modes.2.1 sqrtZero [5, 5, 5] 6 (by decide) (by rfl)).2⟩

/-- C2 (counterexample): the claim's typed, distinguishable errors do not
reach the caller — on `[1]` (fewer than two points) and on `[5, 5, 5]`
(zero standard deviation) `calculate_zscore` raises the identical
`UnboundLocalError`, while the typed internal exceptions (`StatisticsError`,
`ZeroDivisionError`) are caught and logged inside the function. -/
theorem zscore_error_collapse_counterexample :
    calculate_zscore sqrtZero [1] 5 = Except.error PyErr.unboundLocalError
    ∧ calculate_zscore sqrtZero [5, 5, 5] 6 = Except.error PyErr.unboundLocalError
    ∧ calculate_zscore sqrtZero [1] 5 = calculate_zscore sqrtZero [5, 5, 5] 6
    ∧ zscore_try sqrtZero [1] 5 = Except.error PyErr.statisticsError
    ∧ zscore_try sqrtZero [5, 5, 5] 6 = Except.error PyErr.zeroDivisionError
    ∧ PyErr.unboundLocalError ≠ PyErr.statisticsError
    ∧ PyErr.unboundLocalError ≠ PyErr.zeroDivisionError :=
  ⟨rfl, rfl, rfl, rfl, rfl, by decide, by decide⟩

/-- C10: `calculate_zscore` never returns a partial or stale result: both
failure modes raise instead of returning, and every returned triple
`(z, m, s)` satisfies `s ≠ 0` and `z = (current - m) / s` with `m` the sample
mean and `s` the computed standard deviation. -/
theorem zscore_no_partial_result :
    ∀ (sqrtf : ℚ → ℚ) (past : List ℚ) (current : ℚ),
      ((past.length < 2 ∨ sqrtf (sampleVariance past) = 0) →
        calculate_zscore sqrtf past current = Except.error PyErr.unboundLocalError)
      ∧ (∀ z m s : ℚ, calculate_zscore sqrtf past current = Except.ok (z, m, s) →
          s ≠ 0 ∧ z = (current - m) / s ∧ m = sampleMean past ∧
            s = sqrtf (sampleVariance past)) := by
  intro sqrtf past current
  constructor
  · intro h
    rcases h with h | h
    · simp [calculate_zscore, zscore_try, h]
    · by_cases hlt : past.length < 2
      · simp [calculate_zscore, zscore_try, hlt]
      · simp [calculate_zscore, zscore_try, hlt, h]
  · intro z m s h
    by_cases hlt : past.length < 2
    · simp [calculate_zscore, zscore_try, hlt] at h
    · by_cases hs : sqrtf (sampleVariance past) = 0
      · simp [calculate_zscore, zscore_try, hlt, hs] at h
      · simp [calculate_zscore, zscore_try, hlt, hs] at h
        obtain ⟨hz, hm, hsd⟩ := h
        subst hm
        subst hsd
        subst hz
        exact ⟨hs, rfl, rfl, rfl⟩

/-- C5: for at least two data points and nonzero standard deviation,
`calculate_zscore` returns `(z, m, s)` with `m` the sample mean, `s` the
square root of the Bessel-corrected sample variance (constrained by the
defining properties of the real square root, `0 ≤ s` and `s ^ 2` equal to the
sample variance), and `z = (current - m) / s`; in particular on
`[1, 2, 3, 4, 5]` with current value 3 the z-score is 0. -/
theorem zscore_success_spec :
    (∀ (sqrtf : ℚ → ℚ) (past : List ℚ) (current : ℚ),
        2 ≤ past.length →
        0 ≤ sqrtf (sampleVariance past) →
        sqrtf (sampleVariance past) ^ 2 = sampleVariance past →
        sampleVariance past ≠ 0 →
        calculate_zscore sqrtf past current =
          Except.ok ((current - sampleMean past) / sqrtf (sampleVariance past),
            sampleMean past, sqrtf (sampleVariance past)))
    ∧ (∀ g : ℚ → ℚ, g (sampleVariance [1, 2, 3, 4, 5]) ≠ 0 →
        calculate_zscore g [1, 2, 3, 4, 5] 3 =
          Except.ok (0, 3, g (sampleVariance [1, 2, 3, 4, 5]))) := by
  constructor
  · intro sqrtf past current hlen _hpos hsq hvar
    have hnlt : ¬past.length < 2 := Nat.not_lt.mpr hlen
    have hs : sqrtf (sampleVariance past) ≠ 0 := by
      intro h0
      apply hvar
      rw [← hsq, h0]
      ring
    simp [calculate_zscore, zscore_try, hnlt, hs]
  · intro g hg
    have hm : sampleMean [1, 2, 3, 4, 5] = 3 := by
      norm_num [sampleMean]
    have hnlt : ¬([1, 2, 3, 4, 5] : List ℚ).length < 2 := by norm_num
    simp [calculate_zscore, zscore_try, hnlt, hg, hm]

/-- Witness for `zscore_success_spec` at `[1, 2, 3]` (sample variance 1,
where `sqrtOne` agrees with the real square root) and current value 5. -/
theorem zscore_success_spec_witness :
    2 ≤ ([1, 2, 3] : List ℚ).length
    ∧ calculate_zscore sqrtOne [1, 2, 3] 5 =
        Except.ok ((5 - sampleMean [1, 2, 3]) / sqrtOne (sampleVariance [1, 2, 3]),
          sampleMean [1, 2, 3], sqrtOne (sampleVariance [1, 2, 3])) :=
  ⟨by decide, zscore_success_spec.1 sqrtOne [1, 2, 3] 5 (by decide) (by norm_num [sqrtOne])
    (by norm_num [sqrtOne, sampleVariance, sampleMean])
    (by norm_num [sampleVariance, sampleMean])⟩

/-- C3: the sigma comparison of `get_price_deviation` is strict on both
sides: ALERT exactly when `z > s` or `z < -s`, INFO otherwise (in particular
at the boundary `z = 1, s = 1`, while `z = 1.01, s = 1` is ALERT); and the
`main` dispatch always passes the fixed sigma threshold 1.0 to the
price-deviation analysis. -/
theorem classify_by_sigma_strict :
    (∀ z s : ℚ, classify_by_sigma z s = Classification.alert ↔ (z > s ∨ z < -s))
    ∧ (∀ z s : ℚ, classify_by_sigma z s = Classification.info ↔ ¬(z > s ∨ z < -s))
    ∧ classify_by_sigma 1 1 = Classification.info
    ∧ classify_by_sigma (101 / 100) 1 = Classification.alert
    ∧ (∀ (t : String) (d s : ℚ), AnalysisCall.priceDev s ∈ mainDispatch t d → s = 1)
    ∧ (∀ (d : ℚ) (sqrtf : ℚ → ℚ) (tkr : Ticker) (c1 c2 : List (List ℚ)),
        runMain "pricedev" d sqrtf tkr c1 c2 = get_price_deviation sqrtf tkr 1) := by
  have halert : ∀ z s : ℚ,
      classify_by_sigma z s = Classification.alert ↔ (z > s ∨ z < -s) := by
    intro z s
    unfold classify_by_sigma
    split_ifs with h1 h2
    · simp [h1]
    · rw [mul_neg_one] at h2
      simp [h1, h2]
    · rw [mul_neg_one] at h2
      simp [h1, h2]
  refine ⟨halert, ?_, by norm_num [classify_by_sigma], by norm_num [classify_by_sigma], ?_, ?_⟩
  · intro z s
    have hcases : classify_by_sigma z s = Classification.info ↔
        ¬classify_by_sigma z s = Classification.alert := by
      cases hc : classify_by_sigma z s <;> simp
    rw [hcases, halert]
  · intro t d s h
    simp only [mainDispatch] at h
    split_ifs at h <;> simp_all
  · intro d sqrtf tkr c1 c2
    simp [runMain]

/-- Witness for `classify_by_sigma_strict`: the "all" dispatch contains a
price-deviation call and its sigma is 1. -/
theorem classify_by_sigma_strict_witness :
    AnalysisCall.priceDev 1 ∈ mainDispatch "all" 0 ∧ (1 : ℚ) = 1 :=
  ⟨by decide, classify_by_sigma_strict.2.2.2.2.1 "all" 0 1 (by decide)⟩

/-- When the price-change pipeline reaches its comparison, the emitted event
is determined by the strict comparison `abs(percent_change) > threshold`. -/
theorem get_price_change_eq_of_percent (tkr : Ticker) (t pc : ℚ)
    (h : priceChangePercent tkr = Except.ok pc) :
    get_price_change tkr t =
      [if abs pc > t then Event.sinkAlert AlertKind.pricechange
        else Event.sinkInfo AlertKind.pricechange] := by
  cases h1 : get_current_price tkr with
  | error e => simp [priceChangePercent, h1] at h
  | ok current =>
    cases h2 : get_open_price tkr with
    | error e => simp [priceChangePercent, h1, h2] at h
    | ok op =>
      have h3 : calculate_percentage_change current op = Except.ok pc := by
        simpa [priceChangePercent, h1, h2] using h
      by_cases hc : abs pc > t <;>
        simp [get_price_change, get_price_change_body, h1, h2, h3, hc,
          send_alert, send_info]

/-- C1 (counterexample): at a percentage change exactly equal to the
threshold (close 104, open 100, threshold 4.0) the code's strict comparison
`abs(percent_change) > threshold` classifies INFO, while the claim's
`abs(p) >= t` demands ALERT. -/
theorem price_change_boundary_counterexample :
    calculate_percentage_change 104 100 = Except.ok 4
    ∧ abs (4 : ℚ) ≥ 4
    ∧ get_price_change ⟨some 104, some 100, none⟩ 4 = [Event.sinkInfo AlertKind.pricechange]
    ∧ Event.sinkInfo AlertKind.pricechange ≠ Event.sinkAlert AlertKind.pricechange := by
  refine ⟨by norm_num [calculate_percentage_change], by norm_num, ?_, by decide⟩
  norm_num [get_price_change, get_price_change_body, get_current_price, get_open_price,
    calculate_percentage_change, send_info]

/-- C1 (amended): the price-change classification is ALERT exactly when
`abs(percent_change) > threshold` (strict), INFO otherwise; the end-to-end
scenario close 105, open 100, threshold 4.0 (CLI deviation 0.04 scaled by
100) gives percentage change 5.0 and ALERT. -/
theorem price_change_threshold_semantics :
    (∀ (tkr : Ticker) (t pc : ℚ), priceChangePercent tkr = Except.ok pc →
      (get_price_change tkr t = [Event.sinkAlert AlertKind.pricechange] ↔ abs pc > t)
      ∧ (get_price_change tkr t = [Event.sinkInfo AlertKind.pricechange] ↔ ¬abs pc > t))
    ∧ priceChangePercent ⟨some 105, some 100, some [100, 101, 99, 102, 98]⟩ = Except.ok 5
    ∧ get_price_change ⟨some 105, some 100, some [100, 101, 99, 102, 98]⟩ 4 =
        [Event.sinkAlert AlertKind.pricechange]
    ∧ mainDispatch "pricechange" (1 / 25) = [AnalysisCall.priceChange 4] := by
  refine ⟨?_, ?_, ?_, ?_⟩
  · intro tkr t pc h
    rw [get_price_change_eq_of_percent tkr t pc h]
    by_cases hc : abs pc > t <;> simp [hc]
  · norm_num [priceChangePercent, get_current_price, get_open_price,
      calculate_percentage_change]
  · norm_num [get_price_change, get_price_change_body, get_current_price, get_open_price,
      calculate_percentage_change, send_alert]
  · simp only [mainDispatch]
    rw [if_neg (by decide)]
    norm_num

/-- Witness for `price_change_threshold_semantics`: the end-to-end scenario
percentage change 5.0 against threshold 4.0 is ALERT. -/
theorem price_change_threshold_semantics_witness :
    get_price_change ⟨some 105, some 100, some [100, 101, 99, 102, 98]⟩ 4 =
      [Event.sinkAlert AlertKind.pricechange] :=
  ((price_change_threshold_semantics.1 ⟨some 105, some 100, some [100, 101, 99, 102, 98]⟩
    4 5 price_change_threshold_semantics.2.1).1).mpr (by norm_num)

/-- When the volume-deviation pipeline reaches its comparison, the emitted
event is determined by the directional comparison
`percent_change > threshold`. -/
theorem get_volume_deviation_eq_of_percent (c1 c2 : List (List ℚ)) (t pc : ℚ)
    (h : volDevPercentChange c1 c2 = Except.ok pc) :
    get_volume_deviation c1 c2 t =
      [if pc > t then Event.sinkAlert AlertKind.voldev
        else Event.sinkInfo AlertKind.voldev] := by
  cases h1 : get_total_volume_past_24_hours c1 with
  | error e => simp [volDevPercentChange, h1] at h
  | ok total =>
    cases h2 : get_current_volume_1m_interval c2 with
    | error e => simp [volDevPercentChange, h1, h2] at h
    | ok cur =>
      have h3 : calculate_percentage_change cur total = Except.ok pc := by
        simpa [volDevPercentChange, h1, h2] using h
      by_cases hc : pc > t <;>
        simp [get_volume_deviation, get_volume_deviation_body, h1, h2, h3, hc,
          send_alert, send_info]

/-- C6 (amended): the volume-deviation classification is ALERT exactly when
`percent_change > threshold` (strict, non-absolute, directional);
consequently, for any nonnegative threshold, every negative percentage change
(a volume drop) is classified INFO. -/
theorem volume_deviation_directional_semantics :
    ∀ (c1 c2 : List (List ℚ)) (t pc : ℚ), volDevPercentChange c1 c2 = Except.ok pc →
      (get_volume_deviation c1 c2 t = [Event.sinkAlert AlertKind.voldev] ↔ pc > t)
      ∧ (get_volume_deviation c1 c2 t = [Event.sinkInfo AlertKind.voldev] ↔ ¬pc > t)
      ∧ (0 ≤ t → pc < 0 →
          get_volume_deviation c1 c2 t = [Event.sinkInfo AlertKind.voldev]) := by
  intro c1 c2 t pc h
  rw [get_volume_deviation_eq_of_percent c1 c2 t pc h]
  refine ⟨?_, ?_, ?_⟩
  · by_cases hc : pc > t <;> simp [hc]
  · by_cases hc : pc > t <;> simp [hc]
  · intro ht hneg
    have hc : ¬pc > t := by linarith
    simp [hc]

/-- C6 (counterexample): with a negative caller threshold (-200) a negative
percentage change (-75, a volume drop) is classified ALERT, refuting
"every negative percentage change, however large in magnitude, is classified
INFO". -/
theorem volume_deviation_negative_alert_counterexample :
    volDevPercentChange [[0, 2], [0, 2]] [[0, 1]] = Except.ok (-75)
    ∧ ((-75 : ℚ) < 0)
    ∧ get_volume_deviation [[0, 2], [0, 2]] [[0, 1]] (-200) =
        [Event.sinkAlert AlertKind.voldev] := by
  have hpc : volDevPercentChange [[0, 2], [0, 2]] [[0, 1]] = Except.ok (-75) := by
    norm_num [volDevPercentChange, get_total_volume_past_24_hours, collectRowLasts,
      rowLast, lastD, List.getLast?, get_current_volume_1m_interval,
      List.cons_ne_nil, calculate_percentage_change]
  refine ⟨hpc, by norm_num, ?_⟩
  rw [get_volume_deviation_eq_of_percent [[0, 2], [0, 2]] [[0, 1]] (-200) (-75) hpc]
  norm_num

/-- Witness for `volume_deviation_directional_semantics`: percentage change
-75 against threshold 10 is INFO. -/
theorem volume_deviation_directional_semantics_witness :
    get_volume_deviation [[0, 2], [0, 2]] [[0, 1]] 10 = [Event.sinkInfo AlertKind.voldev] := by
  have hpc : volDevPercentChange [[0, 2], [0, 2]] [[0, 1]] = Except.ok (-75) := by
    norm_num [volDevPercentChange, get_total_volume_past_24_hours, collectRowLasts,
      rowLast, lastD, List.getLast?, get_current_volume_1m_interval,
      List.cons_ne_nil, calculate_percentage_change]
  exact (volume_deviation_directional_semantics [[0, 2], [0, 2]] [[0, 1]] 10 (-75) hpc).2.2
    (by norm_num) (by norm_num)

/-- Every event the price-deviation body can return is a plain logger event,
never an AlertSink event. -/
theorem price_deviation_body_not_sink (sqrtf : ℚ → ℚ) (tkr : Ticker) (s : ℚ) (e : Event)
    (h : get_price_deviation_body sqrtf tkr s = Except.ok e) : isSinkEvent e = false := by
  cases h1 : get_current_price tkr with
  | error e1 => simp [get_price_deviation_body, h1] at h
  | ok current =>
    cases h2 : get_hourly_past_24_hours tkr with
    | error e2 => simp [get_price_deviation_body, h1, h2] at h
    | ok past =>
      cases h3 : calculate_zscore sqrtf past current with
      | error e3 => simp [get_price_deviation_body, h1, h2, h3] at h
      | ok r =>
        obtain ⟨z, m, sd⟩ := r
        by_cases hc : classify_by_sigma z s = Classification.alert <;>
          simp [get_price_deviation_body, h1, h2, h3, hc] at h <;>
          simp [← h, isSinkEvent]

/-- C7 (amended): the price-deviation analysis never emits to the AlertSink;
whenever its z-score computation completes, it records the classification via
the logger directly — an error-level log when `classify_by_sigma` says ALERT,
an info-level log otherwise. -/
theorem price_deviation_logs_only :
    (∀ (sqrtf : ℚ → ℚ) (tkr : Ticker) (s : ℚ),
      (get_price_deviation sqrtf tkr s).filter isSinkEvent = [])
    ∧ (∀ (sqrtf : ℚ → ℚ) (tkr : Ticker) (s z m sd : ℚ),
        priceDevZscore sqrtf tkr = Except.ok (z, m, sd) →
        get_price_deviation sqrtf tkr s =
          [if classify_by_sigma z s = Classification.alert then Event.logError
            else Event.logInfo]) := by
  constructor
  · intro sqrtf tkr s
    cases hb : get_price_deviation_body sqrtf tkr s with
    | error e => simp [get_price_deviation, hb, List.filter, isSinkEvent]
    | ok e =>
      have hns := price_deviation_body_not_sink sqrtf tkr s e hb
      simp [get_price_deviation, hb, List.filter, hns]
  · intro sqrtf tkr s z m sd h
    cases h1 : get_current_price tkr with
    | error e1 => simp [priceDevZscore, h1] at h
    | ok current =>
      cases h2 : get_hourly_past_24_hours tkr with
      | error e2 => simp [priceDevZscore, h1, h2] at h
      | ok past =>
        have h3 : calculate_zscore sqrtf past current = Except.ok (z, m, sd) := by
          simpa [priceDevZscore, h1, h2] using h
        by_cases hc : classify_by_sigma z s = Classification.alert <;>
          simp [get_price_deviation, get_price_deviation_body, h1, h2, h3, hc]

/-- C7 (counterexample): a price-deviation run whose z-score computation
completes (close 105, open 100, changes [99, 100, 101], sample variance 1,
z-score 5, an ALERT classification) emits only a direct logger event and no
AlertSink event at all. -/
theorem price_deviation_no_sink_counterexample :
    priceDevZscore sqrtOne ⟨some 105, some 100, some [99, 100, 101]⟩ = Except.ok (5, 100, 1)
    ∧ get_price_deviation sqrtOne ⟨some 105, some 100, some [99, 100, 101]⟩ 1 =
        [Event.logError]
    ∧ isSinkEvent Event.logError = false
    ∧ (get_price_deviation sqrtOne ⟨some 105, some 100, some [99, 100, 101]⟩ 1).filter
        isSinkEvent = [] := by
  have hz : priceDevZscore sqrtOne ⟨some 105, some 100, some [99, 100, 101]⟩ =
      Except.ok (5, 100, 1) := by
    norm_num [priceDevZscore, get_current_price, get_hourly_past_24_hours,
      calculate_zscore, zscore_try, sampleMean, sampleVariance, sqrtOne]
  have hev : get_price_deviation sqrtOne ⟨some 105, some 100, some [99, 100, 101]⟩ 1 =
      [Event.logError] := by
    norm_num [get_price_deviation, get_price_deviation_body, get_current_price,
      get_hourly_past_24_hours, calculate_zscore, zscore_try, sampleMean,
      sampleVariance, sqrtOne, classify_by_sigma]
  exact ⟨hz, hev, rfl, by rw [hev]; rfl⟩

/-- Witness for `price_deviation_logs_only` at the completed-z-score input
with z-score 5 and sigma threshold 1. -/
theorem price_deviation_logs_only_witness :
    get_price_deviation sqrtOne ⟨some 105, some 100, some [99, 100, 101]⟩ 1 =
      [if classify_by_sigma 5 1 = Classification.alert then Event.logError
        else Event.logInfo] := by
  apply price_deviation_logs_only.2 sqrtOne ⟨some 105, some 100, some [99, 100, 101]⟩ 1 5 100 1
  norm_num [priceDevZscore, get_current_price, get_hourly_past_24_hours,
    calculate_zscore, zscore_try, sampleMean, sampleVariance, sqrtOne]

/-- The volume accumulation loop succeeds on rows that all have a last
column, returning exactly those last columns. -/
theorem collectRowLasts_of_nonempty :
    ∀ l : List (List ℚ), (∀ r ∈ l, r ≠ []) →
      collectRowLasts l = Except.ok (l.map lastD) := by
  intro l
  induction l with
  | nil => intro _; rfl
  | cons r rs ih =>
    intro h
    have hr : r ≠ [] := h r (by simp)
    have hlast : rowLast r = Except.ok (lastD r) := by
      unfold rowLast lastD
      cases hg : r.getLast? with
      | none => exact absurd (List.getLast?_eq_none_iff.mp hg) hr
      | some v => simp [hg]
    have hrs : collectRowLasts rs = Except.ok (rs.map lastD) :=
      ih (fun x hx => h x (by simp [hx]))
    simp [collectRowLasts, hlast, hrs]

/-- C8: on a nonempty candle response whose (at most 24) considered rows are
nonempty, `get_total_volume_past_24_hours` returns the sum of the last field
of each of the first min(24, length) rows; 24 rows with last column 1 give
24; the result depends only on the last fields (invariance under any
modification of the non-volume columns); and the empty response raises
`ValueError` (the spec's `EmptyDataError`). -/
theorem total_volume_spec :
    (∀ response : List (List ℚ), response ≠ [] →
      (∀ row ∈ response.take 24, row ≠ []) →
      get_total_volume_past_24_hours response =
        Except.ok (((response.take 24).map lastD).sum))
    ∧ get_total_volume_past_24_hours [] = Except.error PyErr.valueError
    ∧ get_total_volume_past_24_hours (List.replicate 24 [0, 0, 0, 0, 0, 1]) = Except.ok 24
    ∧ (∀ r r' : List (List ℚ), r ≠ [] → r' ≠ [] →
        (∀ row ∈ r.take 24, row ≠ []) → (∀ row ∈ r'.take 24, row ≠ []) →
        (r.take 24).map lastD = (r'.take 24).map lastD →
        get_total_volume_past_24_hours r = get_total_volume_past_24_hours r') := by
  have hmain : ∀ response : List (List ℚ), response ≠ [] →
      (∀ row ∈ response.take 24, row ≠ []) →
      get_total_volume_past_24_hours response =
        Except.ok (((response.take 24).map lastD).sum) := by
    intro response hne hrows
    cases response with
    | nil => exact absurd rfl hne
    | cons r rs =>
      have hc := collectRowLasts_of_nonempty ((r :: rs).take 24) hrows
      simp only [get_total_volume_past_24_hours, hc]
  refine ⟨hmain, rfl, ?_, ?_⟩
  · have hne : List.replicate 24 ([0, 0, 0, 0, 0, 1] : List ℚ) ≠ [] := by
      decide
    have hrows : ∀ row ∈ (List.replicate 24 ([0, 0, 0, 0, 0, 1] : List ℚ)).take 24,
        row ≠ [] := by
      intro row hrow
      have := List.eq_of_mem_replicate (List.mem_of_mem_take hrow)
      simp [this]
    rw [hmain _ hne hrows]
    have hlast : lastD [0, 0, 0, 0, 0, 1] = 1 := rfl
    simp [List.take_replicate, List.map_replicate, hlast, List.sum_replicate]
    norm_num
  · intro r r' hr hr' hrows hrows' hmap
    rw [hmain r hr hrows, hmain r' hr' hrows', hmap]

/-- Witness for `total_volume_spec` on the single-row response `[[0, 1]]`. -/
theorem total_volume_spec_witness :
    ([[0, 1]] : List (List ℚ)) ≠ []
    ∧ get_total_volume_past_24_hours [[0, 1]] =
        Except.ok ((([[0, 1]] : List (List ℚ)).take 24).map lastD).sum :=
  ⟨by simp, total_volume_spec.1 [[0, 1]] (by simp) (by simp)⟩

/-- The price-deviation analysis always terminates with exactly one event. -/
theorem get_price_deviation_length (sqrtf : ℚ → ℚ) (tkr : Ticker) (s : ℚ) :
    (get_price_deviation sqrtf tkr s).length = 1 := by
  cases hb : get_price_deviation_body sqrtf tkr s <;> simp [get_price_deviation, hb]

/-- The price-change analysis always terminates with exactly one event. -/
theorem get_price_change_length (tkr : Ticker) (t : ℚ) :
    (get_price_change tkr t).length = 1 := by
  cases hb : get_price_change_body tkr t <;> simp [get_price_change, hb]

/-- The volume-deviation analysis always terminates with exactly one event. -/
theorem get_volume_deviation_length (c1 c2 : List (List ℚ)) (t : ℚ) :
    (get_volume_deviation c1 c2 t).length = 1 := by
  cases hb : get_volume_deviation_body c1 c2 t <;> simp [get_volume_deviation, hb]

/-- C9: the "all" dispatch runs price-deviation, price-change and
volume-deviation in that order; each analysis runs to completion with exactly
one terminal event regardless of the others; and when the price-deviation
body raises, only its own slot degrades to an exception log while the other
two analyses still contribute their events. -/
theorem orchestrator_all_independent :
    ∀ (d : ℚ) (sqrtf : ℚ → ℚ) (tkr : Ticker) (c1 c2 : List (List ℚ)),
      runMain "all" d sqrtf tkr c1 c2 =
        get_price_deviation sqrtf tkr 1 ++ get_price_change tkr (d * 100) ++
          get_volume_deviation c1 c2 (d * 100)
      ∧ (get_price_deviation sqrtf tkr 1).length = 1
      ∧ (get_price_change tkr (d * 100)).length = 1
      ∧ (get_volume_deviation c1 c2 (d * 100)).length = 1
      ∧ (∀ e : PyErr, get_price_deviation_body sqrtf tkr 1 = Except.error e →
          runMain "all" d sqrtf tkr c1 c2 =
            Event.logException ::
              (get_price_change tkr (d * 100) ++ get_volume_deviation c1 c2 (d * 100)))
      ∧ mainDispatch "all" d =
          [AnalysisCall.priceDev 1, AnalysisCall.priceChange (d * 100),
            AnalysisCall.volDev (d * 100)] := by
  intro d sqrtf tkr c1 c2
  have hrun : runMain "all" d sqrtf tkr c1 c2 =
      get_price_deviation sqrtf tkr 1 ++ get_price_change tkr (d * 100) ++
        get_volume_deviation c1 c2 (d * 100) := by
    simp only [runMain]
    rw [if_neg (by decide), if_neg (by decide), if_neg (by decide)]
    simp
  refine ⟨hrun, get_price_deviation_length sqrtf tkr 1, get_price_change_length tkr (d * 100),
    get_volume_deviation_length c1 c2 (d * 100), ?_, ?_⟩
  · intro e he
    have hpd : get_price_deviation sqrtf tkr 1 = [Event.logException] := by
      simp [get_price_deviation, he]
    rw [hrun, hpd]
    simp
  · simp only [mainDispatch]
    rw [if_neg (by decide), if_neg (by decide), if_neg (by decide)]
    simp

/-- Witness for `orchestrator_all_independent`: with a ticker missing every
field the price-deviation body raises, yet the "all" run still contains the
events of the other two analyses. -/
theorem orchestrator_all_independent_witness :
    runMain "all" 0 sqrtZero ⟨none, none, none⟩ [[0, 1]] [[0, 1]] =
      Event.logException ::
        (get_price_change ⟨none, none, none⟩ (0 * 100) ++
          get_volume_deviation [[0, 1]] [[0, 1]] (0 * 100)) :=
  (orchestrator_all_independent 0 sqrtZero ⟨none, none, none⟩ [[0, 1]] [[0, 1]]).2.2.2.2.1
    PyErr.valueError rfl

/-- Witness for `zscore_no_partial_result` on the successful run
`calculate_zscore sqrtOne [1, 2, 3] 5 = ok (3, 2, 1)`. -/
theorem zscore_no_partial_result_witness :
    (1 : ℚ) ≠ 0 ∧ (3 : ℚ) = (5 - 2) / 1 ∧ (2 : ℚ) = sampleMean [1, 2, 3]
    ∧ (1 : ℚ) = sqrtOne (sampleVariance [1, 2, 3]) :=
  (zscore_no_partial_result sqrtOne [1, 2, 3] 5).2 3 2 1
    (by norm_num [calculate_zscore, zscore_try, sampleMean, sampleVariance, sqrtOne])
